import Mathlib

/-!
Shallow embedding of `src/server.js` (sixtycodes/book-directory): an Express
HTTP API over a single Postgres table `books`.  Each route handler is embedded
as a pure function from the database state (plus a store-availability flag and
a clock value standing for `CURRENT_TIMESTAMP`) to a response and a new state.
The SQL fragments appearing in the handlers are given their Postgres semantics:
`ILIKE` pattern matching (with `%`, `_` and backslash escape, per-character
case folding), integer text-parameter parsing for `id = $1`, `COUNT(DISTINCT ...)`,
`SUM(...)`, `SELECT DISTINCT ... ORDER BY`, and `ORDER BY created_at DESC`.
JavaScript truthiness (`!title`, `year || null`, `if (search)`) is embedded
by the `truthyS` / `orNull*` functions below.
-/

namespace BookDirectory

/-- A row of the `books` table (see `initDatabase` in server.js).
`title` and `author` are NOT NULL; the other business columns are nullable,
embedded as `Option`. `DECIMAL(10,2)` prices are embedded as rationals;
timestamps as naturals. -/
structure Book where
  id : Nat
  title : String
  author : String
  year : Option Int
  genre : Option String
  pages : Option Int
  price : Option ℚ
  isbn : Option String
  description : Option String
  created_at : Nat
  updated_at : Nat
deriving DecidableEq

/-- A JSON request body for POST/PUT `/api/books`, after `express.json()`:
each field either absent (`none`, which also covers JSON `null` — both are
falsy and both coalesce to SQL NULL) or present with a value of the column's
type. -/
structure ReqBody where
  title : Option String
  author : Option String
  year : Option Int
  genre : Option String
  pages : Option Int
  price : Option ℚ
  isbn : Option String
  description : Option String
deriving DecidableEq

/-- Query string of GET `/api/books`: `req.query.search` and `req.query.genre`,
each absent or a string. -/
structure Query where
  search : Option String
  genre : Option String
deriving DecidableEq

/-- Database state: the rows of `books` plus the SERIAL sequence for `id`. -/
structure DB where
  books : List Book
  nextId : Nat
deriving DecidableEq

/-- An HTTP response: either a success payload with its status code, or an
error status with the JSON body `\x7b "error": <message> \x7d`. -/
inductive Resp (α : Type) where
  | ok (status : Nat) (body : α)
  | err (status : Nat) (error : String)
deriving DecidableEq

/-- JavaScript truthiness of an optional string field (`!title` in server.js):
absent, `null` and the empty string are falsy. -/
def truthyS : Option String → Bool
  | some s => s ≠ ""
  | none => false

/-- `s || null` for a string-typed body field: falsy values coalesce to NULL. -/
def orNullS : Option String → Option String
  | some s => if s = "" then none else some s
  | none => none

/-- `n || null` for an integer-typed body field: `0` is falsy and coalesces to
NULL. -/
def orNullI : Option Int → Option Int
  | some n => if n = 0 then none else some n
  | none => none

/-- `q || null` for the decimal `price` field: `0` is falsy and coalesces to
NULL. -/
def orNullR : Option ℚ → Option ℚ
  | some q => if q = 0 then none else some q
  | none => none

/-- Postgres text-to-`integer` parsing for a bound parameter (`WHERE id = $1`
with a text route parameter): optional surrounding whitespace, optional sign,
one or more digits, int4 range check.  `none` means the query raises
`invalid input syntax for type integer` (or out of range), which the
handler's `catch` turns into a 500 response. -/
def pgParseInt (s : String) : Option Int :=
  let cs := (s.data.dropWhile Char.isWhitespace)
  let cs := (cs.reverse.dropWhile Char.isWhitespace).reverse
  let signDigits : Bool × List Char :=
    match cs with
    | '-' :: rest => (true, rest)
    | '+' :: rest => (false, rest)
    | _ => (false, cs)
  let ds := signDigits.2
  if ds = [] then none
  else if ds.all Char.isDigit then
    let n : Nat := ds.foldl (fun a c => a * 10 + (c.toNat - 48)) 0
    let v : Int := if signDigits.1 then -(n : Int) else (n : Int)
    if -2147483648 ≤ v ∧ v ≤ 2147483647 then some v else none
  else none

/-- SQL `LOWER` on a string: per-character case folding. -/
def lowerStr (s : String) : String := ⟨s.data.map Char.toLower⟩

/-- SQL `LIKE`/`ILIKE` pattern matching on character lists: `%` matches any
sequence, `_` any single character, backslash escapes the next pattern
character; literal characters are compared case-insensitively via
`Char.toLower` (this is the `ILIKE` variant used by the list handler). -/
def likeMatchCI : List Char → List Char → Bool
  | [], [] => true
  | [], _ :: _ => false
  | '%' :: ps, cs =>
    (List.range (cs.length + 1)).any fun n => likeMatchCI ps (cs.drop n)
  | '_' :: _, [] => false
  | '_' :: ps, _ :: cs => likeMatchCI ps cs
  | '\\' :: q :: ps, c :: cs =>
    (q.toLower = c.toLower : Bool) && likeMatchCI ps cs
  | '\\' :: _, _ => false
  | _ :: _, [] => false
  | p :: ps, c :: cs => (p.toLower = c.toLower : Bool) && likeMatchCI ps cs

/-- `value ILIKE pattern` on strings. -/
def ilike (s pat : String) : Bool := likeMatchCI pat.data s.data

/-- The WHERE condition built by GET `/api/books`: an `ILIKE '%search%'`
disjunct over `title`, `author`, `description` when `search` is truthy, AND an
exact `genre = $n` equality when `genre` is truthy (`NULL` columns never
match either condition). -/
def listPred (q : Query) (b : Book) : Bool :=
  (match q.search with
   | some s =>
     if s = "" then true
     else
       ilike b.title ("%" ++ s ++ "%") || ilike b.author ("%" ++ s ++ "%") ||
         (match b.description with
          | some d => ilike d ("%" ++ s ++ "%")
          | none => false)
   | none => true)
  &&
  (match q.genre with
   | some g =>
     if g = "" then true
     else b.genre = some g
   | none => true)

/-- GET `/api/books`: filter by `search`/`genre`, `ORDER BY created_at DESC`.
`down = true` means the store query fails; the catch block answers 500. -/
def getBooks (down : Bool) (db : DB) (q : Query) : Resp (List Book) × DB :=
  if down then (Resp.err 500 "Failed to fetch books", db)
  else
    (Resp.ok 200 (List.insertionSort (fun a b : Book => b.created_at ≤ a.created_at)
        (db.books.filter (listPred q))), db)

/-- GET `/api/books/:id`: `SELECT * FROM books WHERE id = $1`; an id that does
not parse as an integer makes the query raise (500 via catch); no matching row
is 404; otherwise the row is returned. -/
def getBook (down : Bool) (db : DB) (idStr : String) : Resp Book × DB :=
  if down then (Resp.err 500 "Failed to fetch book", db)
  else
    match pgParseInt idStr with
    | none => (Resp.err 500 "Failed to fetch book", db)
    | some i =>
      match db.books.find? (fun b => (b.id : Int) = i) with
      | none => (Resp.err 404 "Book not found", db)
      | some b => (Resp.ok 200 b, db)

/-- POST `/api/books`: validate `!title || !author` before any query, then
`INSERT ... RETURNING *` with `x || null` coalescing on the optional fields;
both timestamps set to the current clock. -/
def createBook (down : Bool) (db : DB) (now : Nat) (r : ReqBody) :
    Resp Book × DB :=
  if ¬ truthyS r.title ∨ ¬ truthyS r.author then
    (Resp.err 400 "Title and author are required", db)
  else if down then (Resp.err 500 "Failed to add book", db)
  else
    let b : Book :=
      { id := db.nextId
        title := r.title.getD ""
        author := r.author.getD ""
        year := orNullI r.year
        genre := orNullS r.genre
        pages := orNullI r.pages
        price := orNullR r.price
        isbn := orNullS r.isbn
        description := orNullS r.description
        created_at := now
        updated_at := now }
    (Resp.ok 201 b, { books := db.books ++ [b], nextId := db.nextId + 1 })

/-- The `SET` clause of the UPDATE statement applied to one row: every
editable column is overwritten from the body (`x || null` coalescing on the
optional ones) and `updated_at` is set to `CURRENT_TIMESTAMP`; `id` and
`created_at` do not appear in the clause. -/
def applyUpdate (r : ReqBody) (now : Nat) (b : Book) : Book :=
  { b with
    title := r.title.getD ""
    author := r.author.getD ""
    year := orNullI r.year
    genre := orNullS r.genre
    pages := orNullI r.pages
    price := orNullR r.price
    isbn := orNullS r.isbn
    description := orNullS r.description
    updated_at := now }

/-- PUT `/api/books/:id`: validate `!title || !author` before any query, then
`UPDATE ... SET ..., updated_at = CURRENT_TIMESTAMP WHERE id = $9 RETURNING *`
with the same `x || null` coalescing; empty `RETURNING` set is 404, otherwise
`rows[0]` (the updated row) is returned. -/
def updateBook (down : Bool) (db : DB) (now : Nat) (idStr : String)
    (r : ReqBody) : Resp Book × DB :=
  if ¬ truthyS r.title ∨ ¬ truthyS r.author then
    (Resp.err 400 "Title and author are required", db)
  else if down then (Resp.err 500 "Failed to update book", db)
  else
    match pgParseInt idStr with
    | none => (Resp.err 500 "Failed to update book", db)
    | some i =>
      match db.books.find? (fun b => (b.id : Int) = i) with
      | none => (Resp.err 404 "Book not found", db)
      | some b =>
        (Resp.ok 200 (applyUpdate r now b),
          { db with
            books := db.books.map
              (fun x => if (x.id : Int) = i then applyUpdate r now x else x) })

/-- DELETE `/api/books/:id`: `DELETE FROM books WHERE id = $1 RETURNING *`;
unparsable id raises (500), empty `RETURNING` set is 404, otherwise the
matching rows are removed and a confirmation message returned. -/
def deleteBook (down : Bool) (db : DB) (idStr : String) : Resp String × DB :=
  if down then (Resp.err 500 "Failed to delete book", db)
  else
    match pgParseInt idStr with
    | none => (Resp.err 500 "Failed to delete book", db)
    | some i =>
      if db.books.any (fun b => (b.id : Int) = i) then
        (Resp.ok 200 "Book deleted successfully",
          { db with books := db.books.filter (fun b => ¬ (b.id : Int) = i) })
      else (Resp.err 404 "Book not found", db)

/-- The four aggregate counters of GET `/api/stats`. -/
structure Stats where
  totalBooks : Nat
  uniqueAuthors : Nat
  uniqueGenres : Nat
  totalValue : ℚ
deriving DecidableEq

/-- GET `/api/stats`: four independent read statements —
`COUNT(*)`, `COUNT(DISTINCT LOWER(author))`,
`COUNT(DISTINCT genre) ... WHERE genre IS NOT NULL AND genre != ''`,
`SUM(price) ... WHERE price IS NOT NULL` (NULL sum is coalesced to 0 by
`result.rows[0].total || 0`). -/
def getStats (down : Bool) (db : DB) : Resp Stats × DB :=
  if down then (Resp.err 500 "Failed to fetch statistics", db)
  else
    (Resp.ok 200
      { totalBooks := db.books.length
        uniqueAuthors := (db.books.map (fun b => lowerStr b.author)).dedup.length
        uniqueGenres :=
          ((db.books.filterMap Book.genre).filter (fun g => ¬ g = "")).dedup.length
        totalValue := ((db.books.filterMap Book.price).sum : ℚ) }, db)

/-- GET `/api/genres`:
`SELECT DISTINCT genre FROM books WHERE genre IS NOT NULL AND genre != ''
ORDER BY genre` — the distinct non-empty genre values in ascending order. -/
def getGenres (down : Bool) (db : DB) : Resp (List String) × DB :=
  if down then (Resp.err 500 "Failed to fetch genres", db)
  else
    (Resp.ok 200
      (Finset.sort (· ≤ ·)
        ((db.books.filterMap Book.genre).filter (fun g => ¬ g = "")).toFinset),
      db)

/-! ### Spec-side definitions

These follow the spec's wording ("occurs case-insensitively as a substring",
"distinct authors compared case-insensitively", ...) and are compared with the
source-side definitions above by the claim theorems. -/

/-- Spec-side: `needle` occurs case-insensitively as a substring of `hay`. -/
def substrCI (needle hay : String) : Prop :=
  needle.data.map Char.toLower <:+: hay.data.map Char.toLower

instance (needle hay : String) : Decidable (substrCI needle hay) :=
  List.decidableInfix _ _

/-- A string free of the SQL pattern metacharacters `%`, `_` and the escape
character backslash. -/
def noWild (s : String) : Prop :=
  ∀ c ∈ s.data, c ≠ '%' ∧ c ≠ '_' ∧ c ≠ '\\'

instance (s : String) : Decidable (noWild s) :=
  List.decidableBAll _ _

/-- Spec-side: the search string occurs case-insensitively as a substring of
the book's `title`, `author`, or `description` (logical OR; an absent
description matches nothing). -/
def matchesSearch (s : String) (b : Book) : Prop :=
  substrCI s b.title ∨ substrCI s b.author ∨
    ∃ d, b.description = some d ∧ substrCI s d

instance (s : String) (b : Book) : Decidable (matchesSearch s b) :=
  match hd : b.description with
  | some d =>
    decidable_of_iff (substrCI s b.title ∨ substrCI s b.author ∨ substrCI s d)
      (by simp [matchesSearch, hd])
  | none =>
    decidable_of_iff (substrCI s b.title ∨ substrCI s b.author)
      (by simp [matchesSearch, hd])

/-- Spec-side: the constraint the `search` parameter places on a returned
book — none when the parameter is absent or empty, otherwise a
case-insensitive substring match on title/author/description. -/
def searchOK (q : Query) (b : Book) : Prop :=
  ∀ s, q.search = some s → s ≠ "" → matchesSearch s b

/-- Spec-side: the constraint the `genre` parameter places on a returned
book — none when the parameter is absent or empty, otherwise an exact
case-sensitive match. -/
def genreOK (q : Query) (b : Book) : Prop :=
  ∀ g, q.genre = some g → g ≠ "" → b.genre = some g

/-- Spec-side: how a stored row's optional fields relate to the request body
that produced them — each optional field holds the supplied value when that
value is truthy, and SQL NULL when the field is absent from the body or its
value is falsy (`0` or the empty string). -/
def coalescedFieldsOK (r : ReqBody) (b : Book) : Prop :=
  b.year = r.year.bind (fun n => if n = 0 then none else some n) ∧
  b.genre = r.genre.bind (fun s => if s = "" then none else some s) ∧
  b.pages = r.pages.bind (fun n => if n = 0 then none else some n) ∧
  b.price = r.price.bind (fun q => if q = 0 then none else some q) ∧
  b.isbn = r.isbn.bind (fun s => if s = "" then none else some s) ∧
  b.description = r.description.bind (fun s => if s = "" then none else some s)

/-- Spec-side: the field-replacement contract of a successful full-replace
update on prior row `b0` producing row `b` at clock `now`: `id` and
`created_at` are untouched, `updated_at` becomes `now`, the required fields
take the supplied values, and the optional fields follow the
coalescing contract. -/
def updatedFieldsOK (r : ReqBody) (now : Nat) (b0 b : Book) : Prop :=
  b.id = b0.id ∧
  b.created_at = b0.created_at ∧
  b.updated_at = now ∧
  (∀ t, r.title = some t → b.title = t) ∧
  (∀ a, r.author = some a → b.author = a) ∧
  coalescedFieldsOK r b

/-! ### Helper lemmas -/

theorem orNullS_eq_bind (o : Option String) :
    orNullS o = o.bind (fun s => if s = "" then none else some s) := by
  cases o <;> rfl

theorem orNullI_eq_bind (o : Option Int) :
    orNullI o = o.bind (fun n => if n = 0 then none else some n) := by
  cases o <;> rfl

theorem orNullR_eq_bind (o : Option ℚ) :
    orNullR o = o.bind (fun q => if q = 0 then none else some q) := by
  cases o <;> rfl

/-! ### LIKE-matching lemmas -/

theorem likeMatchCI_percent_nil (cs : List Char) :
    likeMatchCI ['%'] cs = true := by
  simp only [likeMatchCI, List.any_eq_true, List.mem_range]
  exact ⟨cs.length, Nat.lt_succ_self _, by simp [likeMatchCI]⟩

theorem likeMatchCI_lit_percent (lit : List Char)
    (h : ∀ c ∈ lit, c ≠ '%' ∧ c ≠ '_' ∧ c ≠ '\\') (cs : List Char) :
    likeMatchCI (lit ++ ['%']) cs = true ↔
      lit.map Char.toLower <+: cs.map Char.toLower := by
  induction lit generalizing cs with
  | nil => simp [likeMatchCI_percent_nil]
  | cons a lit ih =>
    obtain ⟨ha1, ha2, ha3⟩ := h a (List.mem_cons_self a lit)
    cases cs with
    | nil => simp [likeMatchCI, ha1, ha2, ha3]
    | cons c cs =>
      have ih2 := ih (fun x hx => h x (List.mem_cons_of_mem a hx)) cs
      simp [likeMatchCI, ha1, ha2, ha3, ih2, List.cons_prefix_cons]

theorem likeMatchCI_percent_cons (ps cs : List Char) :
    likeMatchCI ('%' :: ps) cs = true ↔
      ∃ n, likeMatchCI ps (cs.drop n) = true := by
  simp only [likeMatchCI, List.any_eq_true, List.mem_range]
  constructor
  · rintro ⟨n, _, h⟩
    exact ⟨n, h⟩
  · rintro ⟨n, h⟩
    by_cases hn : n < cs.length + 1
    · exact ⟨n, hn, h⟩
    · refine ⟨cs.length, Nat.lt_succ_self _, ?_⟩
      rw [List.drop_length]
      rwa [List.drop_eq_nil_of_le (by omega)] at h

theorem exists_prefix_drop_iff_infix (a l : List Char) :
    (∃ n, a <+: l.drop n) ↔ a <:+: l := by
  constructor
  · rintro ⟨n, t, ht⟩
    exact ⟨l.take n, t, by rw [List.append_assoc, ht, List.take_append_drop]⟩
  · rintro ⟨s, t, rfl⟩
    refine ⟨s.length, t, ?_⟩
    rw [List.append_assoc, List.drop_left]

/-- The core substring characterisation: for a search string free of SQL
wildcard characters, the pattern `%search%` matches under `ILIKE` exactly
when the search string is a case-insensitive substring. -/
theorem ilike_pattern_iff_substrCI (s v : String) (h : noWild s) :
    ilike v ("%" ++ s ++ "%") = true ↔ substrCI s v := by
  have hdata : ("%" ++ s ++ "%").data = '%' :: (s.data ++ ['%']) := by
    simp [String.data_append]
  rw [ilike, hdata, likeMatchCI_percent_cons]
  have hlit : ∀ n, likeMatchCI (s.data ++ ['%']) (v.data.drop n) = true ↔
      s.data.map Char.toLower <+: (v.data.drop n).map Char.toLower :=
    fun n => likeMatchCI_lit_percent s.data h (v.data.drop n)
  simp only [hlit, List.map_drop]
  exact exists_prefix_drop_iff_infix _ _

/-- The WHERE condition of the list query agrees with the spec-side search
and genre constraints, provided the search string is free of SQL wildcard
characters. -/
theorem listPred_iff (q : Query) (b : Book)
    (hs : ∀ s, q.search = some s → noWild s) :
    listPred q b = true ↔ searchOK q b ∧ genreOK q b := by
  unfold listPred searchOK genreOK
  cases hq : q.search with
  | none =>
    cases hg : q.genre with
    | none => simp
    | some g =>
      by_cases hge : g = "" <;> simp [hge]
  | some s =>
    have hnw := hs s hq
    by_cases hse : s = ""
    · cases hg : q.genre with
      | none => simp [hse]
      | some g =>
        by_cases hge : g = "" <;> simp [hse, hge]
    · have hmatch :
          (ilike b.title ("%" ++ s ++ "%") || ilike b.author ("%" ++ s ++ "%") ||
            (match b.description with
             | some d => ilike d ("%" ++ s ++ "%")
             | none => false)) = true ↔ matchesSearch s b := by
        cases hd : b.description with
        | none =>
          simp [ilike_pattern_iff_substrCI s _ hnw, matchesSearch, hd]
        | some d =>
          simp only [ilike_pattern_iff_substrCI s _ hnw, matchesSearch, hd,
            Bool.or_eq_true, Option.some.injEq]
          constructor
          · rintro ((h | h) | h)
            · exact Or.inl h
            · exact Or.inr (Or.inl h)
            · exact Or.inr (Or.inr ⟨d, rfl, h⟩)
          · rintro (h | h | ⟨d2, rfl, h⟩)
            · exact Or.inl (Or.inl h)
            · exact Or.inl (Or.inr h)
            · exact Or.inr h
      cases hg : q.genre with
      | none => simp [hse, hmatch]
      | some g =>
        by_cases hge : g = "" <;> simp [hse, hge, hmatch]

/-- Get answers 404 whenever the id parses and no row matches it. -/
theorem getBook_404 (db : DB) (idStr : String) (i : Int)
    (hp : pgParseInt idStr = some i)
    (hb : ∀ b ∈ db.books, ¬ (b.id : Int) = i) :
    getBook false db idStr = (Resp.err 404 "Book not found", db) := by
  have hfind : db.books.find? (fun b => (b.id : Int) = i) = none :=
    List.find?_eq_none.mpr (fun x hx => by simpa using hb x hx)
  simp [getBook, hp, hfind]

/-! ### Example data for witnesses and counterexamples -/

def exBook1 : Book :=
  { id := 1, title := "Dune", author := "Herbert", year := some 1965,
    genre := some "Sci-Fi", pages := none, price := none, isbn := none,
    description := none, created_at := 1, updated_at := 1 }

def exDB1 : DB := { books := [exBook1], nextId := 2 }

def exBody1 : ReqBody :=
  { title := none, author := some "X", year := none, genre := none,
    pages := none, price := none, isbn := none, description := none }

def exDB3 : DB := { books := [], nextId := 1 }

def exBook3 : Book :=
  { id := 1, title := "T", author := "A", year := none, genre := none,
    pages := none, price := none, isbn := none, description := none,
    created_at := 1, updated_at := 1 }

def exDB3b : DB := { books := [exBook3], nextId := 2 }

def exDB9 : DB := { books := [], nextId := 1 }

def exBody9 : ReqBody :=
  { title := some "T", author := some "A", year := none, genre := none,
    pages := none, price := none, isbn := none, description := none }

/-! ### Claim theorems -/

/-- C1: for every Create request in which `title` or `author` is missing or
empty, the operation returns the 400 validation error before touching the
store (for any store condition `down`), the table state is unchanged, and the
Stats total count is the same before and after. -/
theorem claim_C1_create_validation (down : Bool) (db : DB) (now : Nat)
    (r : ReqBody)
    (h : r.title = none ∨ r.title = some "" ∨ r.author = none ∨
      r.author = some "") :
    createBook down db now r =
        (Resp.err 400 "Title and author are required", db) ∧
      (createBook down db now r).2 = db ∧
      (getStats false (createBook down db now r).2).1 =
        (getStats false db).1 := by
  have hcond : ¬ truthyS r.title = true ∨ ¬ truthyS r.author = true := by
    rcases h with h | h | h | h <;> simp [truthyS, h]
  have heq : createBook down db now r =
      (Resp.err 400 "Title and author are required", db) := by
    unfold createBook
    rw [if_pos hcond]
  exact ⟨heq, by rw [heq], by rw [heq]⟩

/-- Witness for C1: the body `\x7b"author":"X"\x7d` (absent title) is rejected
with 400 and the database is unchanged. -/
theorem claim_C1_witness :
    (exBody1.title = none ∨ exBody1.title = some "" ∨ exBody1.author = none ∨
        exBody1.author = some "") ∧
      (createBook false exDB1 5 exBody1 =
          (Resp.err 400 "Title and author are required", exDB1) ∧
        (createBook false exDB1 5 exBody1).2 = exDB1 ∧
        (getStats false (createBook false exDB1 5 exBody1).2).1 =
          (getStats false exDB1).1) :=
  ⟨Or.inl rfl, claim_C1_create_validation false exDB1 5 exBody1 (Or.inl rfl)⟩

/-- C3 counterexample: on the non-numeric id `"abc"` the Get handler answers
500 ("Failed to fetch book", the catch branch for the Postgres
integer-parsing failure), not the 404 the claim requires. -/
theorem claim_C3_counterexample :
    (getBook false exDB3 "abc").1 = Resp.err 500 "Failed to fetch book" ∧
      ¬ (getBook false exDB3 "abc").1 = Resp.err 404 "Book not found" := by
  decide

/-- C3 amended: `id` is interpreted as the entity's integer identifier; a
numeric id matching no record yields 404 (not-found), while a non-numeric id
makes the store query raise and yields the 500 internal error. -/
theorem claim_C3_get_semantics (db : DB) (idStr : String) :
    (pgParseInt idStr = none →
      getBook false db idStr = (Resp.err 500 "Failed to fetch book", db)) ∧
    (∀ i, pgParseInt idStr = some i →
      (∀ b ∈ db.books, ¬ (b.id : Int) = i) →
      getBook false db idStr = (Resp.err 404 "Book not found", db)) := by
  constructor
  · intro h
    simp [getBook, h]
  · intro i hi hb
    exact getBook_404 db idStr i hi hb

/-- Witness for C3 (amended): the numeric id `"7"` matches no record of the
one-row database and yields 404. -/
theorem claim_C3_witness :
    pgParseInt "7" = some 7 ∧
      getBook false exDB3b "7" = (Resp.err 404 "Book not found", exDB3b) :=
  ⟨by decide, (claim_C3_get_semantics exDB3b "7").2 7 (by decide) (by decide)⟩

/-- C9: when the store fails, every one of the seven handlers catches the
failure and answers its uniform 500 internal-error response (a body of shape
`\x7b "error": <message> \x7d`) with the state unchanged; for Create/Update the
store is only reached after validation passes. The embedding is total, so no
error escapes a handler. -/
theorem claim_C9_store_errors (db : DB) (q : Query) (idStr : String)
    (now : Nat) (r : ReqBody) :
    getBooks true db q = (Resp.err 500 "Failed to fetch books", db) ∧
    getBook true db idStr = (Resp.err 500 "Failed to fetch book", db) ∧
    (truthyS r.title = true → truthyS r.author = true →
      createBook true db now r = (Resp.err 500 "Failed to add book", db)) ∧
    (truthyS r.title = true → truthyS r.author = true →
      updateBook true db now idStr r =
        (Resp.err 500 "Failed to update book", db)) ∧
    deleteBook true db idStr = (Resp.err 500 "Failed to delete book", db) ∧
    getStats true db = (Resp.err 500 "Failed to fetch statistics", db) ∧
    getGenres true db = (Resp.err 500 "Failed to fetch genres", db) := by
  refine ⟨rfl, rfl, ?_, ?_, rfl, rfl, rfl⟩
  · intro ht ha
    simp [createBook, ht, ha]
  · intro ht ha
    simp [updateBook, ht, ha]

/-- Witness for C9: with a failing store, a valid Create body, a valid Update
request and a Stats call each produce their uniform 500 response. -/
theorem claim_C9_witness :
    createBook true exDB9 3 exBody9 =
        (Resp.err 500 "Failed to add book", exDB9) ∧
      updateBook true exDB9 3 "1" exBody9 =
        (Resp.err 500 "Failed to update book", exDB9) ∧
      getStats true exDB9 = (Resp.err 500 "Failed to fetch statistics", exDB9) :=
  ⟨(claim_C9_store_errors exDB9 { search := none, genre := none } "1" 3
      exBody9).2.2.1 (by decide) (by decide),
    (claim_C9_store_errors exDB9 { search := none, genre := none } "1" 3
      exBody9).2.2.2.1 (by decide) (by decide),
    (claim_C9_store_errors exDB9 { search := none, genre := none } "1" 3
      exBody9).2.2.2.2.2.1⟩

def exBook5a : Book :=
  { id := 1, title := "T1", author := "Bob", year := none, genre := some "A",
    pages := none, price := none, isbn := none, description := none,
    created_at := 1, updated_at := 1 }

def exBook5b : Book :=
  { id := 2, title := "T2", author := "BOB", year := none, genre := none,
    pages := none, price := none, isbn := none, description := none,
    created_at := 2, updated_at := 2 }

def exDB5 : DB := { books := [exBook5a, exBook5b], nextId := 3 }

/-- C5: Stats is a live read returning exactly four counters: the row count,
the number of distinct authors compared case-insensitively, the number of
distinct genres that are neither NULL nor empty, and the sum of the non-NULL
prices, which is 0 when no row has a price. -/
theorem claim_C5_stats (db : DB) :
    ∃ s, getStats false db = (Resp.ok 200 s, db) ∧
      s.totalBooks = db.books.length ∧
      s.uniqueAuthors =
        ((db.books.map (fun b => lowerStr b.author)).toFinset).card ∧
      s.uniqueGenres =
        (((db.books.filterMap Book.genre).filter
          (fun g => ¬ g = "")).toFinset).card ∧
      s.totalValue = ((db.books.filterMap Book.price).sum : ℚ) ∧
      ((∀ b ∈ db.books, b.price = none) → s.totalValue = 0) := by
  refine ⟨_, rfl, rfl, (List.card_toFinset _).symm, (List.card_toFinset _).symm,
    rfl, ?_⟩
  intro h
  have hnil : db.books.filterMap Book.price = [] :=
    List.filterMap_eq_nil_iff.mpr h
  show ((db.books.filterMap Book.price).sum : ℚ) = 0
  rw [hnil, List.sum_nil]

/-- Witness for C5: on a two-row database whose authors differ only by case
and which has no prices, Stats counts one distinct author and reports a total
value of 0. -/
theorem claim_C5_witness :
    ∃ s, getStats false exDB5 = (Resp.ok 200 s, exDB5) ∧
      s.totalBooks = 2 ∧ s.uniqueAuthors = 1 ∧ s.uniqueGenres = 1 ∧
      s.totalValue = 0 := by
  obtain ⟨s, h1, h2, h3, h4, _, h6⟩ := claim_C5_stats exDB5
  refine ⟨s, h1, ?_, ?_, ?_, h6 (by decide)⟩
  · rw [h2]; decide
  · rw [h3]; decide
  · rw [h4]; decide

def exBook6a : Book :=
  { id := 1, title := "T1", author := "A1", year := none, genre := some "B",
    pages := none, price := none, isbn := none, description := none,
    created_at := 1, updated_at := 1 }

def exBook6b : Book :=
  { id := 2, title := "T2", author := "A2", year := none, genre := some "",
    pages := none, price := none, isbn := none, description := none,
    created_at := 2, updated_at := 2 }

def exBook6c : Book :=
  { id := 3, title := "T3", author := "A3", year := none, genre := some "A",
    pages := none, price := none, isbn := none, description := none,
    created_at := 3, updated_at := 3 }

def exBook6d : Book :=
  { id := 4, title := "T4", author := "A4", year := none, genre := some "A",
    pages := none, price := none, isbn := none, description := none,
    created_at := 4, updated_at := 4 }

def exDB6 : DB :=
  { books := [exBook6a, exBook6b, exBook6c, exBook6d], nextId := 5 }

/-- C6: Genres returns exactly the distinct genre values that are neither
NULL nor empty, sorted ascending, with no duplicates. -/
theorem claim_C6_genres (db : DB) :
    ∃ l, getGenres false db = (Resp.ok 200 l, db) ∧
      l.Nodup ∧ l.Sorted (· ≤ ·) ∧ ¬ "" ∈ l ∧
      (∀ g, g ∈ l ↔ (¬ g = "" ∧ ∃ b ∈ db.books, b.genre = some g)) := by
  have hmem : ∀ g, g ∈ Finset.sort (α := String) (· ≤ ·)
      (((db.books.filterMap Book.genre).filter (fun g => ¬ g = "")).toFinset) ↔
      (¬ g = "" ∧ ∃ b ∈ db.books, b.genre = some g) := by
    intro g
    rw [Finset.mem_sort, List.mem_toFinset, List.mem_filter, List.mem_filterMap]
    simp [and_comm]
  refine ⟨_, rfl, Finset.sort_nodup _ _, Finset.sort_sorted _ _, ?_, hmem⟩
  intro hc
  exact ((hmem "").mp hc).1 rfl

/-- Witness for C6: a database with genres `"B"`, `""`, `"A"`, `"A"` and the
resulting genre list (which is `["A", "B"]`: deduplicated, empty string
excluded, ascending). -/
theorem claim_C6_witness :
    (∃ l, getGenres false exDB6 = (Resp.ok 200 l, exDB6) ∧
      l.Nodup ∧ l.Sorted (· ≤ ·) ∧ ¬ "" ∈ l ∧
      (∀ g, g ∈ l ↔ (¬ g = "" ∧ ∃ b ∈ exDB6.books, b.genre = some g))) :=
  claim_C6_genres exDB6

def exBook4 : Book :=
  { id := 1, title := "ab", author := "zz", year := none, genre := none,
    pages := none, price := none, isbn := none, description := none,
    created_at := 1, updated_at := 1 }

def exDB4 : DB := { books := [exBook4], nextId := 2 }

/-- C4 counterexample: with the search string `"a%"` (present and non-empty)
the book titled `"ab"` is returned although `"a%"` does not occur
case-insensitively as a substring of its title, author, or description — the
claim's iff fails because `%` acts as a wildcard inside the ILIKE pattern. -/
theorem claim_C4_counterexample :
    (getBooks false exDB4 { search := some "a%", genre := none }).1 =
        Resp.ok 200 [exBook4] ∧
      ¬ matchesSearch "a%" exBook4 := by
  decide

/-- C4 amended: provided the search string contains no SQL wildcard or escape
characters (`%`, `_`, backslash), a book is listed iff it passes the search
constraint (case-insensitive substring of title, author, or description, OR
across the three) and the genre constraint (exact case-sensitive match),
where a filter that is absent — or supplied as the empty string, which the
handler treats as absent — imposes no constraint; both filters combine by
AND. -/
theorem claim_C4_list_filter (db : DB) (q : Query)
    (hs : ∀ s, q.search = some s → noWild s) :
    ∃ l, (getBooks false db q).1 = Resp.ok 200 l ∧
      ∀ b, b ∈ l ↔ (b ∈ db.books ∧ searchOK q b ∧ genreOK q b) := by
  refine ⟨_, rfl, fun b => ?_⟩
  rw [List.mem_insertionSort, List.mem_filter, listPred_iff q b hs]

/-- Witness for C4 (amended): the wildcard-free search `"AB"` combined with
no genre filter returns exactly the books matching case-insensitively. -/
theorem claim_C4_witness :
    (∀ s, (Query.mk (some "AB") none).search = some s → noWild s) ∧
      ∃ l, (getBooks false exDB4 (Query.mk (some "AB") none)).1 =
          Resp.ok 200 l ∧
        ∀ b, b ∈ l ↔ (b ∈ exDB4.books ∧ searchOK (Query.mk (some "AB") none) b ∧
          genreOK (Query.mk (some "AB") none) b) :=
  ⟨fun s h => by
    injection h with h2
    subst h2
    decide,
   claim_C4_list_filter exDB4 (Query.mk (some "AB") none)
    (fun s h => by
      injection h with h2
      subst h2
      decide)⟩

def exBook10 : Book :=
  { id := 1, title := "xyz", author := "mm", year := none, genre := none,
    pages := none, price := none, isbn := none, description := none,
    created_at := 1, updated_at := 1 }

def exDB10 : DB := { books := [exBook10], nextId := 2 }

def exBook10b : Book :=
  { id := 1, title := "world", author := "nn", year := none, genre := none,
    pages := none, price := none, isbn := none, description := none,
    created_at := 1, updated_at := 1 }

def exDB10b : DB := { books := [exBook10b], nextId := 2 }

/-- C10: the search parameter is embedded unescaped in the `%search%` ILIKE
pattern, so `_` and `%` inside it act as SQL wildcards: the searches `"x_z"`
and `"w%d"` return books (`"xyz"`, `"world"`) that do not contain the literal
search string as a substring of any searched field. -/
theorem claim_C10_wildcard_semantics :
    ((getBooks false exDB10 { search := some "x_z", genre := none }).1 =
        Resp.ok 200 [exBook10] ∧
      ¬ matchesSearch "x_z" exBook10) ∧
    ((getBooks false exDB10b { search := some "w%d", genre := none }).1 =
        Resp.ok 200 [exBook10b] ∧
      ¬ matchesSearch "w%d" exBook10b) := by
  decide

def exBook2 : Book :=
  { id := 1, title := "T0", author := "A0", year := some 2000, genre := none,
    pages := some 100, price := none, isbn := none, description := none,
    created_at := 1, updated_at := 1 }

def exDB2 : DB := { books := [exBook2], nextId := 2 }

def exBody2 : ReqBody :=
  { title := some "T1", author := some "A1", year := some 2001, genre := none,
    pages := some 0, price := none, isbn := none, description := none }

def exBook2b : Book :=
  { id := 1, title := "T1", author := "A1", year := some 2001, genre := none,
    pages := none, price := none, isbn := none, description := none,
    created_at := 1, updated_at := 9 }

/-- C2 counterexample: updating the row with a body that supplies
`pages = 0` stores NULL, not the supplied value `0` — JavaScript
`pages || null` coalesces the falsy `0` — so "every other editable field is
replaced by the supplied value" fails as stated. -/
theorem claim_C2_counterexample :
    exBody2.pages = some 0 ∧
      updateBook false exDB2 9 "1" exBody2 =
        (Resp.ok 200 exBook2b, { books := [exBook2b], nextId := 2 }) ∧
      exBook2b.pages = none := by
  decide

/-- C2 amended: for every Update on an existing id with valid title and
author, the record's `id` and `created_at` are unchanged, `updated_at`
becomes the current clock (hence ≥ its prior value whenever the prior value
is ≤ the clock), the required fields take the supplied values, and each
optional field takes the supplied value when truthy and NULL when absent or
falsy (`0`/empty string); the updated row is in the new table state. -/
theorem claim_C2_update_replaces (db : DB) (now : Nat) (idStr : String)
    (r : ReqBody) (i : Int) (b0 : Book)
    (hp : pgParseInt idStr = some i)
    (hf : db.books.find? (fun b => (b.id : Int) = i) = some b0)
    (ht : truthyS r.title = true) (ha : truthyS r.author = true)
    (hmono : b0.updated_at ≤ now) :
    ∃ b, (updateBook false db now idStr r).1 = Resp.ok 200 b ∧
      updatedFieldsOK r now b0 b ∧ b0.updated_at ≤ b.updated_at ∧
      b ∈ (updateBook false db now idStr r).2.books := by
  have hb0mem : b0 ∈ db.books := List.mem_of_find?_eq_some hf
  have hb0p : (b0.id : Int) = i := by simpa using List.find?_some hf
  refine ⟨applyUpdate r now b0, ?_, ?_, hmono, ?_⟩
  · simp [updateBook, ht, ha, hp, hf]
  · refine ⟨rfl, rfl, rfl, ?_, ?_, orNullI_eq_bind _, orNullS_eq_bind _,
      orNullI_eq_bind _, orNullR_eq_bind _, orNullS_eq_bind _,
      orNullS_eq_bind _⟩
    · intro t htt
      simp [applyUpdate, htt]
    · intro a haa
      simp [applyUpdate, haa]
  · have : (updateBook false db now idStr r).2.books =
        db.books.map (fun x => if (x.id : Int) = i then applyUpdate r now x
          else x) := by
      simp [updateBook, ht, ha, hp, hf]
    rw [this]
    exact List.mem_map.mpr ⟨b0, hb0mem, by rw [if_pos hb0p]⟩

/-- Witness for C2 (amended): a concrete update of the one-row database at
clock 9. -/
theorem claim_C2_witness :
    pgParseInt "1" = some 1 ∧
      exDB2.books.find? (fun b => (b.id : Int) = 1) = some exBook2 ∧
      truthyS exBody2.title = true ∧ truthyS exBody2.author = true ∧
      exBook2.updated_at ≤ 9 ∧
      ∃ b, (updateBook false exDB2 9 "1" exBody2).1 = Resp.ok 200 b ∧
        updatedFieldsOK exBody2 9 exBook2 b ∧
        exBook2.updated_at ≤ b.updated_at ∧
        b ∈ (updateBook false exDB2 9 "1" exBody2).2.books :=
  ⟨by decide, by decide, by decide, by decide, by decide,
    claim_C2_update_replaces exDB2 9 "1" exBody2 1 exBook2 (by decide)
      (by decide) (by decide) (by decide) (by decide)⟩

def exBody7 : ReqBody :=
  { title := some "T", author := some "A", year := some 0, genre := none,
    pages := none, price := none, isbn := none, description := none }

def exDB7 : DB := { books := [], nextId := 1 }

def exBook7 : Book :=
  { id := 1, title := "T", author := "A", year := none, genre := none,
    pages := none, price := none, isbn := none, description := none,
    created_at := 3, updated_at := 3 }

/-- C7 counterexample: creating a book with the body supplying `year = 0`
stores NULL (`year || null` coalesces the falsy `0`), not the supplied
value `0` — so "a request that supplies an optional field with value 0 ...
stores that supplied value, not absent" fails as stated. -/
theorem claim_C7_counterexample :
    exBody7.year = some 0 ∧
      createBook false exDB7 3 exBody7 =
        (Resp.ok 201 exBook7, { books := [exBook7], nextId := 2 }) ∧
      exBook7.year = none := by
  decide

/-- C7 amended: on Create and Update, an optional field absent from the body
is stored as NULL (not a default), and a supplied value is stored as given
when it is truthy; but a supplied falsy value (`0` or the empty string) is
also coalesced to NULL by `x || null`, so absent and falsy inputs are
indistinguishable in the stored row. -/
theorem claim_C7_option_storage (db : DB) (now : Nat) (r : ReqBody)
    (ht : truthyS r.title = true) (ha : truthyS r.author = true) :
    (∃ b, (createBook false db now r).1 = Resp.ok 201 b ∧
      coalescedFieldsOK r b) ∧
    (∀ idStr i b0, pgParseInt idStr = some i →
      db.books.find? (fun x => (x.id : Int) = i) = some b0 →
      ∃ b, (updateBook false db now idStr r).1 = Resp.ok 200 b ∧
        coalescedFieldsOK r b) := by
  constructor
  · refine ⟨{ id := db.nextId, title := r.title.getD "",
               author := r.author.getD "", year := orNullI r.year,
               genre := orNullS r.genre, pages := orNullI r.pages,
               price := orNullR r.price, isbn := orNullS r.isbn,
               description := orNullS r.description, created_at := now,
               updated_at := now }, by simp [createBook, ht, ha], ?_⟩
    exact ⟨orNullI_eq_bind _, orNullS_eq_bind _, orNullI_eq_bind _,
      orNullR_eq_bind _, orNullS_eq_bind _, orNullS_eq_bind _⟩
  · intro idStr i b0 hp hf
    refine ⟨applyUpdate r now b0, by simp [updateBook, ht, ha, hp, hf], ?_⟩
    exact ⟨orNullI_eq_bind _, orNullS_eq_bind _, orNullI_eq_bind _,
      orNullR_eq_bind _, orNullS_eq_bind _, orNullS_eq_bind _⟩

def exBody7b : ReqBody :=
  { title := some "T2", author := some "A2", year := some 1999,
    genre := some "", pages := some 0, price := none, isbn := some "i9",
    description := none }

def exBook7c : Book :=
  { id := 1, title := "old", author := "olda", year := none, genre := none,
    pages := none, price := none, isbn := none, description := none,
    created_at := 2, updated_at := 2 }

def exDB7c : DB := { books := [exBook7c], nextId := 2 }

/-- Witness for C7 (amended): a body mixing truthy, falsy and absent optional
fields, run through both Create and Update. -/
theorem claim_C7_witness :
    (∃ b, (createBook false exDB7 4 exBody7b).1 = Resp.ok 201 b ∧
      coalescedFieldsOK exBody7b b) ∧
    (∃ b, (updateBook false exDB7c 5 "1" exBody7b).1 = Resp.ok 200 b ∧
      coalescedFieldsOK exBody7b b) :=
  ⟨(claim_C7_option_storage exDB7 4 exBody7b (by decide) (by decide)).1,
    (claim_C7_option_storage exDB7c 5 exBody7b (by decide) (by decide)).2
      "1" 1 exBook7c (by decide) (by decide)⟩

def exBook8a : Book :=
  { id := 1, title := "T1", author := "A1", year := none, genre := none,
    pages := none, price := none, isbn := none, description := none,
    created_at := 1, updated_at := 1 }

def exBook8b : Book :=
  { id := 2, title := "T2", author := "A2", year := none, genre := none,
    pages := none, price := none, isbn := none, description := none,
    created_at := 2, updated_at := 2 }

def exDB8 : DB := { books := [exBook8a, exBook8b], nextId := 3 }

/-- C8: a successful Delete removes exactly the rows matching the id and a
subsequent Get on the same id answers 404; Delete on an id matching no
record answers 404 and leaves the state unchanged. -/
theorem claim_C8_delete_then_get (db : DB) (idStr : String) (i : Int)
    (hp : pgParseInt idStr = some i) :
    (∀ m, (deleteBook false db idStr).1 = Resp.ok 200 m →
      getBook false (deleteBook false db idStr).2 idStr =
        (Resp.err 404 "Book not found", (deleteBook false db idStr).2) ∧
      (∀ b, b ∈ (deleteBook false db idStr).2.books ↔
        (b ∈ db.books ∧ ¬ (b.id : Int) = i))) ∧
    ((∀ b ∈ db.books, ¬ (b.id : Int) = i) →
      deleteBook false db idStr = (Resp.err 404 "Book not found", db)) := by
  by_cases hany : (db.books.any (fun b => (b.id : Int) = i)) = true
  · have hdel : deleteBook false db idStr =
        (Resp.ok 200 "Book deleted successfully",
          { db with books := db.books.filter (fun b => ¬ (b.id : Int) = i) }) := by
      simp only [deleteBook, hp]
      rw [if_neg (by simp), if_pos hany]
    constructor
    · intro m _
      constructor
      · rw [hdel]
        apply getBook_404 _ _ i hp
        intro x hx
        have hxp := (List.mem_filter.mp hx).2
        simpa using hxp
      · intro b
        rw [hdel]
        simp [List.mem_filter]
    · intro hnone
      exfalso
      obtain ⟨x, hx, hxi⟩ := List.any_eq_true.mp hany
      exact hnone x hx (by simpa using hxi)
  · have hdel : deleteBook false db idStr =
        (Resp.err 404 "Book not found", db) := by
      simp only [deleteBook, hp]
      rw [if_neg (by simp), if_neg hany]
    constructor
    · intro m hm
      rw [hdel] at hm
      simp at hm
    · intro _
      exact hdel

/-- Witness for C8: deleting id 1 from a two-row database, then getting
id 1, answers 404. -/
theorem claim_C8_witness :
    getBook false (deleteBook false exDB8 "1").2 "1" =
      (Resp.err 404 "Book not found", (deleteBook false exDB8 "1").2) := by
  have h := (claim_C8_delete_then_get exDB8 "1" 1 (by decide)).1
    "Book deleted successfully" (by decide)
  exact h.1

end BookDirectory
